import Mathlib

/-!
Shallow embedding of the HasCartBeFlask backend core: the Amazon signed
request client (`src/services/amazonApiService.js`) and the category
resolution / commission engine (analytics and admin controllers).
JavaScript strings are modelled as Lean `String`, numbers as `ℚ`
(request bodies are JSON-decoded, so `NaN`/`Infinity` cannot occur),
missing string fields as `""` (JS falsiness), and the Mongo stores as
in-memory lists in document order (`findOne` = first match).
-/

namespace HasCart

/-- ASCII lowercasing of one character (JS `toLowerCase` restricted to the
ASCII range actually exercised by this code base). -/
def jsToLowerChar (c : Char) : Char :=
  if 'A' ≤ c ∧ c ≤ 'Z' then Char.ofNat (c.toNat + 32) else c

/-- ASCII uppercasing of one character (JS `toUpperCase`). -/
def jsToUpperChar (c : Char) : Char :=
  if 'a' ≤ c ∧ c ≤ 'z' then Char.ofNat (c.toNat - 32) else c

/-- JS `String.prototype.toLowerCase` (ASCII fragment). -/
def jsToLower (s : String) : String := ⟨s.data.map jsToLowerChar⟩

/-- JS `String.prototype.toUpperCase` (ASCII fragment). -/
def jsToUpper (s : String) : String := ⟨s.data.map jsToUpperChar⟩

/-- JS `String.prototype.trim` (common whitespace fragment). -/
def jsTrim (s : String) : String :=
  ⟨((s.data.dropWhile Char.isWhitespace).reverse.dropWhile Char.isWhitespace).reverse⟩

/-- ASCII-lowercasing equality, the effect of a case-insensitive anchored
regex `^escapedText$` with the `i` flag, and of `toLowerCase` comparisons. -/
def ciEq (a b : String) : Bool := jsToLower a = jsToLower b

/-- Test `listStarts pat cs`: `cs` begins with `pat` (exact characters). -/
def listStarts : List Char → List Char → Bool
  | [], _ => true
  | _ :: _, [] => false
  | a :: as, b :: bs => a = b && listStarts as bs

/-- Case-insensitive version of `listStarts` (ASCII folding, regex `i` flag). -/
def listStartsCI : List Char → List Char → Bool
  | [], _ => true
  | _ :: _, [] => false
  | a :: as, b :: bs => a.toLower = b.toLower && listStartsCI as bs

/-- Substring containment on character lists (JS `String.prototype.includes`). -/
def listContains (sub : List Char) : List Char → Bool
  | [] => sub.isEmpty
  | c :: rest => listStarts sub (c :: rest) || listContains sub rest

/-- JS `a.includes(b)` on strings. -/
def strIncludes (s sub : String) : Bool := listContains sub.data s.data

/-- JS `a.startsWith(b)` on strings (case-sensitive). -/
def strStarts (s pat : String) : Bool := listStarts pat.data s.data

/-- Stable insertion into a sorted accumulator: the new element goes after
every element it does not strictly precede.  Used to model the (stable,
ES2019) JavaScript `Array.prototype.sort`. -/
def stableInsert (lt : α → α → Bool) (a : α) : List α → List α
  | [] => [a]
  | b :: bs => if lt a b then a :: b :: bs else b :: stableInsert lt a bs

/-- Stable sort (insertion sort, processing elements in original order),
matching the output of JS `sort` for the same total preorder. -/
def stableSort (lt : α → α → Bool) (l : List α) : List α :=
  l.foldl (fun acc a => stableInsert lt a acc) []

/-- The static category → Amazon search index table `SMART_MAP` of
`amazonApiService.js` lines 4–69, in source (insertion) order. -/
def SMART_MAP : List (String × String) := [
  ("Electronics", "Electronics"),
  ("Mobiles", "Electronics"),
  ("Tablets", "Electronics"),
  ("Laptops", "Computers"),
  ("Computers", "Computers"),
  ("Cameras", "Electronics"),
  ("Headphones", "Electronics"),
  ("Accessories", "Electronics"),
  ("Smart Home", "Electronics"),
  ("Wearables", "Electronics"),
  ("TV", "Electronics"),
  ("Television", "Electronics"),
  ("Televisions", "Electronics"),
  ("Smart Televisions", "Electronics"),
  ("LED TV", "Electronics"),
  ("Smart LED TV", "Electronics"),
  ("Fashion", "Fashion"),
  ("Men", "Apparel"),
  ("Women", "Apparel"),
  ("Kids", "Apparel"),
  ("Clothing", "Apparel"),
  ("Shoes", "Shoes"),
  ("Watches", "Watches"),
  ("Jewelry", "Jewelry"),
  ("Bags", "Apparel"),
  ("Home", "HomeAndKitchen"),
  ("Kitchen", "HomeAndKitchen"),
  ("Furniture", "Furniture"),
  ("Decor", "HomeAndKitchen"),
  ("Appliances", "Appliances"),
  ("Garden", "GardenAndOutdoor"),
  ("Tools", "ToolsAndHomeImprovement"),
  ("Beauty", "Beauty"),
  ("Health", "HealthPersonalCare"),
  ("Personal Care", "HealthPersonalCare"),
  ("Groceries", "GroceryAndGourmetFood"),
  ("Baby", "Baby"),
  ("Pet Supplies", "PetSupplies"),
  ("Books", "Books"),
  ("Toys", "ToysAndGames"),
  ("Games", "VideoGames"),
  ("Video Games", "VideoGames"),
  ("Music", "Music"),
  ("Movies", "MoviesAndTV"),
  ("Sports", "SportsAndOutdoors"),
  ("Fitness", "SportsAndOutdoors"),
  ("Automotive", "Automotive"),
  ("Car Accessories", "Automotive"),
  ("Gift Cards", "GiftCards"),
  ("Office", "OfficeProducts"),
  ("Industrial", "Industrial")]

/-- Source `AmazonAPIService.resolveSearchIndex` (lines 283–309): exact key match,
then case-insensitive key match, then substring containment against the
keys sorted longest-first (stable on ties, as JS `sort` is), else `All`.
A JS `null`/`undefined`/empty category is modelled as `""` (all falsy). -/
def resolveSearchIndex (category : String) : String :=
  if category = "" then "All"
  else
    match SMART_MAP.find? (fun kv => kv.1 = category) with
    | some kv => kv.2
    | none =>
      let lowerCategory := jsToLower category
      match SMART_MAP.find? (fun kv => jsToLower kv.1 = lowerCategory) with
      | some kv => kv.2
      | none =>
        let sortedKeys := stableSort (fun a b => b.1.data.length < a.1.data.length) SMART_MAP
        match sortedKeys.find? (fun kv => strIncludes lowerCategory (jsToLower kv.1)) with
        | some kv => kv.2
        | none => "All"

/-- The fixed search-index vocabulary: every value of `SMART_MAP` plus the
wildcard `All`. -/
def INDEX_VOCAB : List String :=
  ["All", "Electronics", "Computers", "Fashion", "Apparel", "Shoes", "Watches",
   "Jewelry", "HomeAndKitchen", "Furniture", "Appliances", "GardenAndOutdoor",
   "ToolsAndHomeImprovement", "Beauty", "HealthPersonalCare",
   "GroceryAndGourmetFood", "Baby", "PetSupplies", "Books", "ToysAndGames",
   "VideoGames", "Music", "MoviesAndTV", "SportsAndOutdoors", "Automotive",
   "GiftCards", "OfficeProducts", "Industrial"]

/-! ## HTML error-page detection and `<title>` extraction -/

/-- Characters matched by `.` in a JS regex without the `s` flag. -/
def isDotChar (c : Char) : Bool :=
  c ≠ '\n' && c ≠ '\r' && c.toNat ≠ 0x2028 && c.toNat ≠ 0x2029

/-- Scan for the non-greedy content of `(.*?)<\/title>` (case-insensitive):
the shortest run of `.`-matchable characters up to a closing `</title>`. -/
def scanTitleContent : List Char → Option (List Char)
  | [] => none
  | c :: rest =>
    if listStartsCI "</title>".data (c :: rest) then some []
    else if isDotChar c then (scanTitleContent rest).map (c :: ·)
    else none

/-- Leftmost match of the regex `<title>(.*?)<\/title>` with flag `i`,
returning the captured group (the JS engine advances one position after a
failed match attempt, exactly as the recursion does). -/
def findTitle : List Char → Option (List Char)
  | [] => none
  | c :: rest =>
    if listStartsCI "<title>".data (c :: rest) then
      match scanTitleContent ((c :: rest).drop 7) with
      | some content => some content
      | none => findTitle rest
    else findTitle rest

/-- JS `responseData.match(/<title>(.*?)<\/title>/i)`, first capture group. -/
def extractTitle (s : String) : Option String := (findTitle s.data).map (⟨·⟩)

/-- The HTML-error-page test of `makeRequest`:
`typeof data === 'string' && data.trim().startsWith('<!DOCTYPE')`. -/
def isHtmlBody (s : String) : Bool := strStarts (jsTrim s) "<!DOCTYPE"

/-! ## JSON values and the uniform Remote API Result -/

/-- A JSON value, as delivered by the HTTP client after body parsing. -/
inductive JVal where
  | jnull
  | jbool (b : Bool)
  | jnum (q : ℚ)
  | jstr (s : String)
  | jarr (xs : List JVal)
  | jobj (fields : List (String × JVal))
deriving BEq

/-- Top-level field access `obj?.Field` (optional chaining: `none` on
anything that is not an object with that field). -/
def JVal.getField : JVal → String → Option JVal
  | .jobj fields, k => (fields.find? (fun kv => kv.1 = k)).map (fun kv => kv.2)
  | _, _ => none

/-- JS `typeof v === 'object' && v !== null` for a parsed JSON value. -/
def JVal.isObjNonNull : JVal → Bool
  | .jobj _ => true
  | .jarr _ => true
  | _ => false

/-- A response body as seen by the handler: either a raw string or a parsed
non-string JSON value (the two shapes `axios` hands over). -/
inductive RData where
  | str (s : String)
  | json (j : JVal)
deriving BEq

/-- A constructed error object `{ Message, Code, StatusCode?, Type? }`. -/
structure BuiltErr where
  message : String
  code : String
  httpStatus : Option Nat := none
  errType : Option String := none
deriving BEq

/-- The `error` field of a failure result: either a constructed object or a
passed-through JSON value (an `Errors[0]` element or a whole error body). -/
inductive ErrVal where
  | built (e : BuiltErr)
  | pass (j : JVal)
deriving BEq

/-- The uniform tagged result every caller of the client receives. -/
structure ApiResult where
  success : Bool
  error : Option ErrVal := none
  rdata : Option RData := none
  statusCode : Option Nat := none
deriving BEq

/-- The `errorKind` (`Type` tag) of a result, when one was attached. -/
def ApiResult.errKind (r : ApiResult) : Option String :=
  match r.error with
  | some (.built e) => e.errType
  | _ => none

/-- The human message of a result, when a constructed error carries one. -/
def ApiResult.errMessage (r : ApiResult) : Option String :=
  match r.error with
  | some (.built e) => some e.message
  | _ => none

/-- The `axios` config `validateStatus: (status) => status < 600`
(`amazonApiService.js` line 382): the request promise resolves exactly for
these statuses; larger ones reject with `error.response` set. -/
def validateStatus (status : Nat) : Bool := status < 600

/-- JS `errorMessage || fallback` on a possibly-empty string. -/
def orElseMsg (m fallback : String) : String := if m = "" then fallback else m

/-- Lines 392–438 of `makeRequest`: handling of a resolved response
(any status accepted by `validateStatus`).  HTML bodies are classified by
status 503/400 only; JSON bodies fail only on a non-empty `Errors` array;
everything else is a success. -/
def handleResolvedResponse (status : Nat) (body : RData) : ApiResult :=
  match body with
  | .str s =>
    if isHtmlBody s then
      let statusCode := if status = 0 then 503 else status
      let msg0 := match extractTitle s with
        | some t => jsTrim t
        | none => "Amazon API returned an unexpected HTML response"
      let etype :=
        if statusCode = 503 then "ServiceUnavailable"
        else if statusCode = 400 then "BadRequest"
        else "InvalidResponse"
      let msg :=
        if statusCode = 503 then orElseMsg msg0 "Amazon API service temporarily unavailable"
        else if statusCode = 400 then orElseMsg msg0 "Invalid request to Amazon API"
        else msg0
      { success := false,
        error := some (.built ⟨msg, "HTTP_" ++ toString statusCode, some statusCode, some etype⟩),
        statusCode := some statusCode }
    else { success := true, rdata := some body }
  | .json j =>
    match j.getField "Errors" with
    | some (.jarr (e :: _)) =>
      { success := false, error := some (.pass e), rdata := some body }
    | _ => { success := true, rdata := some body }

/-- Lines 452–526 of `makeRequest`: handling of a rejected request that
carries `error.response` (status refused by `validateStatus`).  Here the
full status-code table is applied to HTML bodies, and JSON object bodies
are passed through as the structured error. -/
def handleErrorResponse (status : Nat) (body : RData) : ApiResult :=
  match body with
  | .str s =>
    if isHtmlBody s then
      let msg0 := match extractTitle s with
        | some t => jsTrim t
        | none => "Amazon API request failed"
      let etype :=
        if status = 503 then "ServiceUnavailable"
        else if status = 400 then "BadRequest"
        else if status = 401 then "Unauthorized"
        else if status = 403 then "Forbidden"
        else if status = 429 then "TooManyRequests"
        else if 500 ≤ status then "ServerError"
        else "RequestError"
      let msg :=
        if status = 503 then orElseMsg msg0 "Amazon API service temporarily unavailable"
        else if status = 400 then orElseMsg msg0 "Invalid request to Amazon API. Please check your credentials and request parameters."
        else if status = 401 then orElseMsg msg0 "Invalid Amazon API credentials"
        else if status = 403 then orElseMsg msg0 "Access denied to Amazon API"
        else if status = 429 then orElseMsg msg0 "Rate limit exceeded for Amazon API"
        else if 500 ≤ status then orElseMsg msg0 "Amazon API server error"
        else msg0
      { success := false,
        error := some (.built ⟨msg, "HTTP_" ++ toString status, some status, some etype⟩),
        statusCode := some status }
    else
      { success := false,
        error := some (.built ⟨s, "HTTP_" ++ toString status, some status, none⟩),
        statusCode := some status }
  | .json j =>
    if j.isObjNonNull then
      { success := false, error := some (.pass j), statusCode := some status }
    else
      { success := false,
        error := some (.built ⟨"Unknown error from Amazon API", "HTTP_" ++ toString status, some status, none⟩),
        statusCode := some status }

/-- What the transport did: resolved response, rejection with an attached
response, rejection with a request but no response (network failure), or a
rejection carrying neither (`error.code` and `error.message` only). -/
inductive NetOutcome where
  | resolved (status : Nat) (body : RData)
  | errResponse (status : Nat) (body : RData)
  | errNoResponse (code : String)
  | errOther (code : String) (message : String)

/-- The credential set loaded at startup; a missing environment variable is
the falsy `""`. -/
structure Creds where
  accessKey : String
  secretKey : String
  partnerTag : String
  marketplace : String := "www.amazon.in"
deriving BEq

/-- The fixed failure returned when credentials are incomplete. -/
def missingCredsResult : ApiResult :=
  { success := false,
    error := some (.built ⟨"AWS API credentials not configured", "MissingCredentials", none, none⟩) }

/-- Source `AmazonAPIService.makeRequest` (lines 312–574), as a function of the
transport outcome.  `operation` and `payload` parameterize the real HTTP
call, whose behavior the `net` oracle stands for; the second component
records whether the network call was reached: the credential guard
returns before any request is built or sent. -/
def makeRequest (c : Creds) (_operation : String) (_payload : JVal) (net : NetOutcome) :
    ApiResult × Bool :=
  if c.accessKey = "" || c.secretKey = "" || c.partnerTag = "" then
    (missingCredsResult, false)
  else
    (match net with
     | .resolved status body => handleResolvedResponse status body
     | .errResponse status body => handleErrorResponse status body
     | .errNoResponse code =>
       { success := false,
         error := some (.built
           ⟨if code = "ECONNABORTED" then "Unable to reach Amazon API. Request timed out."
            else "Unable to reach Amazon API. Please check your network connection.",
            if code = "ECONNABORTED" then "TimeoutError" else "NetworkError",
            some 503, some "ConnectionError"⟩),
         statusCode := some 503 }
     | .errOther code message =>
       if code = "ECONNABORTED" then
         { success := false,
           error := some (.built ⟨"Request to Amazon API timed out. Please try again later.",
             "TimeoutError", some 504, some "TimeoutError"⟩),
           statusCode := some 504 }
       else
         { success := false,
           error := some (.built
             ⟨orElseMsg message "Unknown error occurred while calling Amazon API",
              "RequestError", some 500, some "UnknownError"⟩),
           statusCode := some 500 },
     true)

/-- Options bag of `searchItems`. -/
structure SearchOptions where
  searchIndex : String := ""
  itemCount : Option ℚ := none
  itemPage : Option ℚ := none
  minPrice : Option ℚ := none
  maxPrice : Option ℚ := none
  brand : String := ""

/-- The `SearchItems` payload (lines 578–603), duplicate `Marketplace` key
collapsed as JS object literals do. -/
def searchItemsPayload (c : Creds) (keywords : String) (o : SearchOptions) : JVal :=
  .jobj ([("Keywords", .jstr keywords),
    ("SearchIndex", .jstr (if o.searchIndex = "" then "All" else o.searchIndex)),
    ("ItemCount", .jnum (o.itemCount.getD 10)),
    ("PartnerTag", .jstr c.partnerTag),
    ("PartnerType", .jstr "Associates"),
    ("Marketplace", .jstr c.marketplace)]
   ++ (match o.itemPage with | some p => [("ItemPage", JVal.jnum p)] | none => [])
   ++ (match o.minPrice with | some p => [("MinPrice", JVal.jnum p)] | none => [])
   ++ (match o.maxPrice with | some p => [("MaxPrice", JVal.jnum p)] | none => [])
   ++ (if o.brand = "" then [] else [("Brand", JVal.jstr o.brand)]))

/-- Source `AmazonAPIService.searchItems` delegates to `makeRequest`. -/
def searchItems (c : Creds) (keywords : String) (o : SearchOptions) (net : NetOutcome) :
    ApiResult × Bool :=
  makeRequest c "SearchItems" (searchItemsPayload c keywords o) net

/-- The `GetItems` payload (lines 610–618); a single ASIN is wrapped into a
list by the source (`Array.isArray(itemIds) ? itemIds : [itemIds]`). -/
def getItemsPayload (c : Creds) (itemIds : List String) : JVal :=
  .jobj [("ItemIds", .jarr (itemIds.map JVal.jstr)),
    ("ItemIdType", .jstr "ASIN"),
    ("PartnerTag", .jstr c.partnerTag),
    ("PartnerType", .jstr "Associates"),
    ("Marketplace", .jstr c.marketplace)]

/-- Source `AmazonAPIService.getItems` delegates to `makeRequest`. -/
def getItems (c : Creds) (itemIds : List String) (net : NetOutcome) : ApiResult × Bool :=
  makeRequest c "GetItems" (getItemsPayload c itemIds) net

/-- The `GetBrowseNodes` payload (lines 625–632). -/
def getBrowseNodesPayload (c : Creds) (browseNodeIds : List String) : JVal :=
  .jobj [("BrowseNodeIds", .jarr (browseNodeIds.map JVal.jstr)),
    ("PartnerTag", .jstr c.partnerTag),
    ("PartnerType", .jstr "Associates"),
    ("Marketplace", .jstr c.marketplace)]

/-- Source `AmazonAPIService.getBrowseNodes` delegates to `makeRequest`. -/
def getBrowseNodes (c : Creds) (browseNodeIds : List String) (net : NetOutcome) :
    ApiResult × Bool :=
  makeRequest c "GetBrowseNodes" (getBrowseNodesPayload c browseNodeIds) net

/-! ## AWS Signature Version 4 (`generateSignature`, lines 204–276) -/

/-- Strict string order by character code, total on distinct strings; the
default JS `Array.prototype.sort` comparator on the ASCII header names. -/
def strLt (a b : String) : Bool := decide (a < b)

/-- Lookup `headers[k]` on a JS object modelled as an insertion-ordered
association list with unique keys. -/
def getHeader (hs : List (String × String)) (k : String) : Option String :=
  (hs.find? (fun kv => kv.1 = k)).map (fun kv => kv.2)

/-- JS `a || b` on possibly-missing strings (`""` and `undefined` both falsy). -/
def jsOrStr (a b : Option String) : Option String :=
  match a with
  | some s => if s = "" then b else some s
  | none => b

/-- JS `headers['X-Amz-Date'] || headers['x-amz-date']`, `none` when the guard
`if (!timestamp) throw` would fire. -/
def extractTimestamp (hs : List (String × String)) : Option String :=
  match jsOrStr (getHeader hs "X-Amz-Date") (getHeader hs "x-amz-date") with
  | some s => if s = "" then none else some s
  | none => none

/-- Spread `{ ...headers, 'host': host }`: overwrite an existing `host` key in
place, else append it. -/
def withHostHeader (hs : List (String × String)) (host : String) : List (String × String) :=
  if hs.any (fun kv => kv.1 = "host") then
    hs.map (fun kv => if kv.1 = "host" then (kv.1, host) else kv)
  else hs ++ [("host", host)]

/-- Lowercased, alphabetically sorted header names (lines 223–225). -/
def sortedHeaderKeys (hs : List (String × String)) : List String :=
  stableSort strLt (hs.map (fun kv => jsToLower kv.1))

/-- One canonical header line `name:trimmed-value\n`: the value of the
first original key whose lowercase form matches (lines 228–234). -/
def canonicalHeaderLine (hs : List (String × String)) (key : String) : String :=
  let value := match hs.find? (fun kv => jsToLower kv.1 = key) with
    | some kv => kv.2
    | none => "undefined"
  key ++ ":" ++ jsTrim value ++ "\n"

/-- The canonical header block (lines 227–235). -/
def canonicalHeadersOf (hs : List (String × String)) : String :=
  String.join ((sortedHeaderKeys hs).map (canonicalHeaderLine hs))

/-- The semicolon-joined signed-headers list (line 237). -/
def signedHeadersOf (hs : List (String × String)) : String :=
  String.intercalate ";" (sortedHeaderKeys hs)

/-- Modelled from the spec: the canonical request exactly as §4.1 step 6
words it — `METHOD`, the path, an empty query string, the canonical header
block, the signed-headers list, and the body hash, joined by newlines. -/
def specCanonicalRequest (method path : String) (hs : List (String × String))
    (payloadHash : String) : String :=
  method ++ "\n" ++ path ++ "\n" ++ "" ++ "\n" ++ canonicalHeadersOf hs ++ "\n" ++
    signedHeadersOf hs ++ "\n" ++ payloadHash

/-- Modelled from the spec: the string-to-sign exactly as §4.1 step 7 words
it — algorithm name, timestamp, credential scope
`date/region/service/aws4_request` with `date` the first 8 characters of
the timestamp, and the SHA-256 hash of the canonical request, joined by
newlines. -/
def specStringToSign (timestamp region canonicalRequest : String)
    (sha256Hex : String → String) : String :=
  "AWS4-HMAC-SHA256" ++ "\n" ++ timestamp ++ "\n" ++
    (⟨timestamp.data.take 8⟩ ++ "/" ++ region ++ "/" ++ "ProductAdvertisingAPI" ++ "/" ++
      "aws4_request") ++ "\n" ++ sha256Hex canonicalRequest

/-- Everything `generateSignature` computes on the way to the
authorization header. -/
structure SigOutput where
  canonicalRequest : String
  stringToSign : String
  signature : String
  authorization : String

/-- Source `AmazonAPIService.generateSignature` (lines 204–276), parametric in the
crypto primitives (`sha256Hex` = hex SHA-256 of a string, `hmac` = binary
HMAC-SHA256 keyed by its first argument, `hexOf` = hex rendering).
Returns `none` when the `X-Amz-Date` guard throws. -/
def generateSignature (region accessKey secretKey : String)
    (sha256Hex : String → String) (hmac : String → String → String)
    (hexOf : String → String)
    (method path : String) (headers : List (String × String))
    (payload host : String) : Option SigOutput :=
  match extractTimestamp headers with
  | none => none
  | some timestamp =>
    let date : String := ⟨timestamp.data.take 8⟩
    let headersWithHost := withHostHeader headers host
    let canonicalHeaders := canonicalHeadersOf headersWithHost
    let signedHeaders := signedHeadersOf headersWithHost
    let payloadHash := sha256Hex payload
    let canonicalRequest := String.intercalate "\n"
      [method, path, "", canonicalHeaders, signedHeaders, payloadHash]
    let credentialScope := date ++ "/" ++ region ++ "/ProductAdvertisingAPI/aws4_request"
    let hashedCanonicalRequest := sha256Hex canonicalRequest
    let stringToSign := String.intercalate "\n"
      ["AWS4-HMAC-SHA256", timestamp, credentialScope, hashedCanonicalRequest]
    let kDate := hmac ("AWS4" ++ secretKey) date
    let kRegion := hmac kDate region
    let kService := hmac kRegion "ProductAdvertisingAPI"
    let kSigning := hmac kService "aws4_request"
    let signature := hexOf (hmac kSigning stringToSign)
    some { canonicalRequest := canonicalRequest,
           stringToSign := stringToSign,
           signature := signature,
           authorization := "AWS4-HMAC-SHA256 Credential=" ++ accessKey ++ "/" ++
             credentialScope ++ ", SignedHeaders=" ++ signedHeaders ++
             ", Signature=" ++ signature }

/-! ## Commission engine data model (Mongo documents as list entries) -/

/-- A Category Rule document (`models/Category.js`): canonical name,
remote search-index value, whole-number commission percentage, free-text
search-query synonyms, active/inactive status. -/
structure Category where
  name : String
  amazonSearchIndex : String
  percentage : ℚ
  searchQueries : List String
  status : String
deriving BEq, DecidableEq

/-- A user document; `referralCode` is `""` when unset, ids are abstract. -/
structure UserRec where
  uid : Nat
  role : String
  referralCode : String
  referredBy : Option Nat
  balance : ℚ
  totalEarnings : ℚ
deriving BEq, DecidableEq

/-- A commission transaction document. -/
structure Txn where
  tid : Nat
  user : Nat
  ttype : String
  amount : ℚ
  status : String
  description : String
  referenceId : Option Nat
  referenceModel : String
deriving BEq, DecidableEq

/-- A product click document. -/
structure Click where
  cid : Nat
  userId : Option Nat
  asin : String
  productName : String
  category : String
  price : ℚ
  agent : Option Nat
  commissionRate : ℚ
deriving BEq, DecidableEq

/-- The authenticated principal provided by the auth middleware. -/
structure Principal where
  pid : Nat
  role : String
deriving BEq, DecidableEq

/-! ## Price sanitization (`trackProductClick`, part_004 lines 548–556) -/

/-- A `price` field of the JSON request body: a string, a number, or
absent/other (JSON decoding excludes `NaN`). -/
inductive PriceIn where
  | pstr (s : String)
  | pnum (q : ℚ)
  | absent
deriving BEq

/-- JS `price.replace(/[^0-9.]/g, '')`: keep only digits and dots. -/
def sanitizeNumeric (s : String) : String :=
  ⟨s.data.filter (fun c => c.isDigit || c = '.')⟩

/-- Numeric value of a digit list read as a natural number. -/
def digitsVal (ds : List Char) : Nat :=
  ds.foldl (fun acc c => 10 * acc + (c.toNat - '0'.toNat)) 0

/-- JS `parseFloat` on a string containing only digits and dots: the longest
numeric prefix `digits [. digits]`; `none` models `NaN`. -/
def parseFloatDigitsDot (s : String) : Option ℚ :=
  let cs := s.data
  let intPart := cs.takeWhile Char.isDigit
  let rest := cs.drop intPart.length
  match rest with
  | '.' :: rest2 =>
    let fracPart := rest2.takeWhile Char.isDigit
    if intPart.isEmpty && fracPart.isEmpty then none
    else some ((digitsVal intPart : ℚ) + (digitsVal fracPart : ℚ) / (10 : ℚ) ^ fracPart.length)
  | _ => if intPart.isEmpty then none else some (digitsVal intPart : ℚ)

/-- The sanitized effective price: a string is cleaned and parsed with
`parseFloat(clean) || 0`; a number is kept; anything else becomes 0. -/
def effectivePrice : PriceIn → ℚ
  | .pstr s => (parseFloatDigitsDot (sanitizeNumeric s)).getD 0
  | .pnum q => q
  | .absent => 0

/-! ## Word-boundary matching (regex `\bterm\b` with flag `i`) -/

/-- JS `\w`: ASCII letters, digits, and underscore. -/
def isWordChar (c : Char) : Bool := c.isAlphanum || c = '_'

/-- Word-character test lifted to an optional character (out of bounds is
a non-word position). -/
def isWordAt : Option Char → Bool
  | some c => isWordChar c
  | none => false

/-- A `\b` boundary holds between two (possibly absent) characters when
exactly one side is a word character. -/
def isBoundary (a b : Option Char) : Bool := isWordAt a != isWordAt b

/-- Does `term` match case-insensitively at the start of `cs`, with word
boundaries against `prev` (the character before `cs`) and the character
following the matched span? -/
def wbMatchAt (term : List Char) (prev : Option Char) (cs : List Char) : Bool :=
  listStartsCI term cs
    && isBoundary prev cs.head?
    && isBoundary ((cs.take term.length).getLast?) ((cs.drop term.length).head?)

/-- Scan all start positions for a `\bterm\b` match. -/
def wbSearch (term : List Char) : Option Char → List Char → Bool
  | prev, [] => wbMatchAt term prev []
  | prev, c :: rest => wbMatchAt term prev (c :: rest) || wbSearch term (some c) rest

/-- JS `new RegExp('\\b' + escapedTerm + '\\b', 'i').test(text)`. -/
def wordBoundaryCI (term text : String) : Bool :=
  wbSearch term.data none text.data

/-! ## Category resolution (`trackProductClick`, part_004 lines 590–766) -/

/-- The local term → category-hint table of the fallback (lines 641–706),
in source order. -/
def TERM_MAP : List (String × String) := [
  ("tv", "Electronics"),
  ("television", "Electronics"),
  ("televisions", "Electronics"),
  ("smart televisions", "Electronics"),
  ("led tv", "Electronics"),
  ("smart led tv", "Electronics"),
  ("led", "Electronics"),
  ("lcd", "Electronics"),
  ("monitor", "Electronics"),
  ("phone", "Electronics"),
  ("mobile", "Electronics"),
  ("tablet", "Electronics"),
  ("camera", "Electronics"),
  ("headphone", "Electronics"),
  ("earphone", "Electronics"),
  ("speaker", "Electronics"),
  ("laptop", "Computers"),
  ("computer", "Computers"),
  ("macbook", "Computers"),
  ("keyboard", "Computers"),
  ("mouse", "Computers"),
  ("watch", "Watches"),
  ("clock", "Watches"),
  ("timepiece", "Watches"),
  ("fridge", "Appliances"),
  ("refrigerator", "Appliances"),
  ("washing machine", "Appliances"),
  ("ac", "Appliances"),
  ("air conditioner", "Appliances"),
  ("microwave", "Appliances"),
  ("kitchen", "HomeAndKitchen"),
  ("home", "HomeAndKitchen"),
  ("furniture", "Furniture"),
  ("soap", "Beauty"),
  ("shampoo", "Beauty"),
  ("cream", "Beauty"),
  ("makeup", "Beauty"),
  ("perfume", "Beauty"),
  ("hair", "Beauty"),
  ("shirt", "Fashion"),
  ("pant", "Fashion"),
  ("jeans", "Fashion"),
  ("shoe", "Shoes"),
  ("sandal", "Shoes"),
  ("sneaker", "Shoes"),
  ("bag", "Luggage"),
  ("luggage", "Luggage"),
  ("wallet", "Luggage"),
  ("fresh", "GroceryAndGourmetFood"),
  ("vegetable", "GroceryAndGourmetFood"),
  ("fruit", "GroceryAndGourmetFood"),
  ("food", "GroceryAndGourmetFood"),
  ("snack", "GroceryAndGourmetFood"),
  ("chocolate", "GroceryAndGourmetFood"),
  ("oil", "GroceryAndGourmetFood"),
  ("rice", "GroceryAndGourmetFood"),
  ("tea", "GroceryAndGourmetFood"),
  ("coffee", "GroceryAndGourmetFood")]

/-- The default 2% commission fraction (`let commissionPercentage = 0.02`). -/
def defaultRate : ℚ := 1 / 50

/-- Source `if (categoryData.percentage > 0) commissionPercentage =
categoryData.percentage / 100` — adopt a positive percentage, else keep
the current fraction. -/
def adoptPct (cur : ℚ) (c : Category) : ℚ :=
  if c.percentage > 0 then c.percentage / 100 else cur

/-- Step 1 lookup (lines 602–607): `Category.findOne` with an anchored
case-insensitive regex on `name` or an `$elemMatch` over `searchQueries`
(no status filter — the collection is searched in document order). -/
def explicitNameMatch (cats : List Category) (fc : String) : Option Category :=
  cats.find? (fun c => ciEq c.name fc || c.searchQueries.any (fun q => ciEq q fc))

/-- Step 2 lookup (lines 615–623): resolve the input through the Smart Map
and match a rule by its `amazonSearchIndex` (skipped on wildcard `All`). -/
def smartIndexMatch (cats : List Category) (fc : String) : Option Category :=
  let resolvedIndex := resolveSearchIndex fc
  if resolvedIndex ≠ "All" then
    cats.find? (fun c => c.amazonSearchIndex = resolvedIndex)
  else none

/-- The explicit-category phase (steps 1–2): only run when the input is
present and not a placeholder. -/
def explicitMatch (cats : List Category) (fc : String) : Option Category :=
  if fc ≠ "Uncategorized" && fc ≠ "Unknown" && fc ≠ "" then
    match explicitNameMatch cats fc with
    | some c => some c
    | none => smartIndexMatch cats fc
  else none

/-- Term sniffing (lines 709–730): the first table term with a
word-boundary hit in the product name whose hint also finds an active rule
(by name containment or search-index equality) wins; a term hit without a
rule falls through to later terms. -/
def findTermMatch (actives : List Category) (productName : String) :
    List (String × String) → Option Category
  | [] => none
  | (term, target) :: rest =>
    if wordBoundaryCI term productName then
      match actives.find? (fun c =>
          strIncludes (jsToLower c.name) (jsToLower target) || c.amazonSearchIndex = target) with
      | some c => some c
      | none => findTermMatch actives productName rest
    else findTermMatch actives productName rest

/-- Keyword sweep (lines 733–765): the first active rule whose name or any
search-query synonym of length ≥ 3 has a word-boundary hit in the product
name. -/
def findKeywordMatch (actives : List Category) (productName : String) : Option Category :=
  actives.find? (fun c =>
    (c.name :: c.searchQueries).any (fun k =>
      k ≠ "" && 3 ≤ k.data.length && wordBoundaryCI k productName))

/-- The fallback phase (lines 633–766): term sniffing first; the keyword
sweep only runs when the category is still a placeholder after it. -/
def fallbackResolve (actives : List Category) (productName : String)
    (st : String × ℚ) : String × ℚ :=
  let st2 :=
    match findTermMatch actives productName TERM_MAP with
    | some c => (c.name, adoptPct st.2 c)
    | none => st
  if st2.1 = "Uncategorized" || st2.1 = "Unknown" then
    match findKeywordMatch actives productName with
    | some c => (c.name, adoptPct st2.2 c)
    | none => st2
  else st2

/-- The full category/rate resolution of `trackProductClick` (part_004
lines 590–766): explicit match (steps 1–3), then the fallback phase
whenever no rule matched or the rate is still the 2% default. -/
def resolveCategory (cats : List Category) (category productName : String) : String × ℚ :=
  let fc0 := if category = "" then "Uncategorized" else category
  let matched := explicitMatch cats fc0
  let st1 : String × ℚ :=
    match matched with
    | some c => (c.name, adoptPct defaultRate c)
    | none => (fc0, defaultRate)
  if matched.isNone || st1.2 = defaultRate then
    fallbackResolve (cats.filter (fun c => c.status = "active")) productName st1
  else st1

/-! ## Agent attribution (part_004 lines 562–588) -/

/-- The store as seen by the engine. -/
structure DB where
  users : List UserRec
  categories : List Category
deriving BEq

/-- Agent attribution precedence: self-attribution for agent/admin
principals, then the referral code from the share link, then the user's
permanent referrer. -/
def resolveAgent (db : DB) (principal : Option Principal)
    (providedAgentId : Option Nat) (referralCode : String) : Option Nat :=
  let agentId := providedAgentId
  let agentId :=
    match principal with
    | some p => if p.role = "agent" || p.role = "admin" then some p.pid else agentId
    | none => agentId
  let agentId :=
    if agentId.isNone && referralCode ≠ "" then
      match db.users.find? (fun u => u.referralCode = jsToUpper (jsTrim referralCode)) with
      | some u => some u.uid
      | none => none
    else agentId
  if agentId.isNone then
    match principal with
    | some p =>
      match db.users.find? (fun u => u.uid = p.pid) with
      | some u => u.referredBy
      | none => none
    | none => none
  else agentId

/-! ## `trackProductClick` (part_004 lines 544–801) -/

/-- The request body of a click event (string fields use `""` for the
falsy absent value). -/
structure TrackReq where
  asin : String
  productName : String
  category : String
  price : PriceIn
  referralCode : String
  providedAgentId : Option Nat
deriving BEq

/-- Outcome of a click event: either the validation rejection, or the
created click record together with the commission transaction opened for
it (at most one per call, `none` when the guard skipped it). -/
structure TrackResult where
  ok : Bool
  click : Option Click
  txn : Option Txn
deriving BEq

/-- Source `trackProductClick`: sanitize price, validate, attribute an agent,
resolve category and rate, persist the click, and open a single pending
commission transaction when an agent is attributed, the price is positive
and the amount is positive. -/
def trackProductClick (db : DB) (principal : Option Principal) (req : TrackReq) :
    TrackResult :=
  let price := effectivePrice req.price
  if req.asin = "" || req.productName = "" then ⟨false, none, none⟩
  else
    let agentId := resolveAgent db principal req.providedAgentId req.referralCode
    let resolved := resolveCategory db.categories req.category req.productName
    let click : Click :=
      { cid := 0,
        userId := principal.map (fun p => p.pid),
        asin := req.asin,
        productName := req.productName,
        category := if resolved.1 = "" then "Uncategorized" else resolved.1,
        price := price,
        agent := agentId,
        commissionRate := resolved.2 }
    let txn : Option Txn :=
      match agentId with
      | some a =>
        if price > 0 then
          let commissionAmount := price * resolved.2
          if commissionAmount > 0 then
            some { tid := 0, user := a, ttype := "earnings", amount := commissionAmount,
                   status := "pending",
                   description := "Pending Commission: " ++ req.productName,
                   referenceId := some click.cid, referenceModel := "ProductClick" }
          else none
        else none
      | none => none
    ⟨true, some click, txn⟩

/-! ## `updateClickCommission` (part_004 lines 894–955) -/

/-- Response tag of the administrative rate override. -/
inductive OverrideResp where
  | ok
  | invalidRate
  | clickNotFound
deriving BEq, DecidableEq

/-- Result of the rate override: the saved click, the final state of the
linked transaction (updated or newly created), and whether one was
created. -/
structure OverrideResult where
  resp : OverrideResp
  click : Option Click
  txn : Option Txn
  created : Bool
deriving BEq

/-- JS `(rate * 100).toFixed(2)` is only used inside descriptions; the
description strings are summarized by the rate they embed. -/
def updatedDescription (rate : ℚ) (productName : String) (suffix : String) : String :=
  "Commission (" ++ toString (rate * 100) ++ "%): " ++ productName ++ suffix

/-- Source `updateClickCommission`: the input is always read as a percentage
(sanitize, `parseFloat`, divide by 100).  The click's rate is overwritten;
an existing linked transaction — whatever its status — has its amount set
to `price × rate`, or is failed out when that amount is not positive; a
missing transaction is created in `pending` when the amount is positive
and the click has an agent. -/
def updateClickCommission (clicks : List Click) (txns : List Txn)
    (clickId : Nat) (rateInput : String) : OverrideResult :=
  match parseFloatDigitsDot (sanitizeNumeric rateInput) with
  | none => ⟨.invalidRate, none, none, false⟩
  | some p =>
    let decimalRate := p / 100
    match clicks.find? (fun c => c.cid = clickId) with
    | none => ⟨.clickNotFound, none, none, false⟩
    | some click =>
      let click' := { click with commissionRate := decimalRate }
      let newAmount := click.price * decimalRate
      match txns.find? (fun t =>
          t.referenceId = some click.cid && t.referenceModel = "ProductClick") with
      | some t =>
        if newAmount > 0 then
          let t' := { t with
            amount := newAmount,
            description := updatedDescription decimalRate click.productName " [Updated]" }
          ⟨.ok, some click', some t', false⟩
        else
          ⟨.ok, some click', some { t with amount := 0, status := "failed" }, false⟩
      | none =>
        if newAmount > 0 && click.agent.isSome then
          let t' : Txn := { tid := 0, user := click.agent.getD 0, ttype := "earnings",
                            amount := newAmount, status := "pending",
                            description := updatedDescription decimalRate click.productName " [Manual Update]",
                            referenceId := some click.cid, referenceModel := "ProductClick" }
          ⟨.ok, some click', some t', true⟩
        else ⟨.ok, some click', none, false⟩

/-! ## `updateTransactionStatus` (part_009 lines 283–315) -/

/-- Administrative bookkeeping state: users (balances) and transactions. -/
structure AdminState where
  users : List UserRec
  txns : List Txn
deriving BEq

/-- Response tag of the administrative status update.  `alreadyProcessed`
is the 'Transaction is already processed' rejection — the spec's §7
`Conflict` category for already-processed transactions. -/
inductive AdminResp where
  | ok
  | txNotFound
  | alreadyProcessed
  | invalidStatus
deriving BEq, DecidableEq

/-- Source `User.findByIdAndUpdate` with an increment of balance and earnings. -/
def creditUser (users : List UserRec) (uid : Nat) (amount : ℚ) : List UserRec :=
  users.map (fun u =>
    if u.uid = uid then
      { u with balance := u.balance + amount, totalEarnings := u.totalEarnings + amount }
    else u)

/-- Overwrite the status of the transaction with the given id. -/
def setTxnStatus (txns : List Txn) (tid : Nat) (status : String) : List Txn :=
  txns.map (fun t => if t.tid = tid then { t with status := status } else t)

/-- Source `updateTransactionStatus`: read-check-write — only a transaction still
in `pending` may transition; completing an `earnings` transaction credits
the owner's balance and lifetime earnings by its amount. -/
def updateTransactionStatus (st : AdminState) (txId : Nat) (status : String) :
    AdminResp × AdminState :=
  match st.txns.find? (fun t => t.tid = txId) with
  | none => (.txNotFound, st)
  | some tx =>
    if tx.status ≠ "pending" then (.alreadyProcessed, st)
    else if status = "completed" then
      let users' := if tx.ttype = "earnings" then creditUser st.users tx.user tx.amount else st.users
      (.ok, ⟨users', setTxnStatus st.txns txId "completed"⟩)
    else if status = "failed" then
      (.ok, ⟨st.users, setTxnStatus st.txns txId "failed"⟩)
    else (.invalidStatus, st)

/-! ## Claim-side observers -/

/-- The status-code → errorKind table exactly as the spec words it for
HTML error bodies (400/401/403/429, ≥500, 503 as ServiceUnavailable). -/
def claimedErrorKind (status : Nat) : String :=
  if status = 503 then "ServiceUnavailable"
  else if status = 400 then "BadRequest"
  else if status = 401 then "Unauthorized"
  else if status = 403 then "Forbidden"
  else if status = 429 then "TooManyRequests"
  else if 500 ≤ status then "ServerError"
  else "RequestError"

/-- The reduced table actually applied on the resolved-response path. -/
def resolvedHtmlKind (status : Nat) : String :=
  if status = 503 then "ServiceUnavailable"
  else if status = 400 then "BadRequest"
  else "InvalidResponse"

/-- Does a JSON body carry a non-empty `Errors` array? -/
def JVal.errorsNonempty (j : JVal) : Bool :=
  match j.getField "Errors" with
  | some (.jarr (_ :: _)) => true
  | _ => false

/-- The first element of the `Errors` array, when non-empty. -/
def JVal.firstError (j : JVal) : Option JVal :=
  match j.getField "Errors" with
  | some (.jarr (e :: _)) => some e
  | _ => none

/-! # Helper lemmas -/

theorem mem_stableInsert {lt : α → α → Bool} {a x : α} {l : List α}
    (h : x ∈ stableInsert lt a l) : x = a ∨ x ∈ l := by
  induction l with
  | nil => simpa [stableInsert] using h
  | cons b bs ih =>
    simp only [stableInsert] at h
    split at h
    · rcases List.mem_cons.mp h with h | h
      · exact Or.inl h
      · exact Or.inr h
    · rcases List.mem_cons.mp h with h | h
      · exact Or.inr (List.mem_cons.mpr (Or.inl h))
      · rcases ih h with h | h
        · exact Or.inl h
        · exact Or.inr (List.mem_cons.mpr (Or.inr h))

theorem mem_stableSort_aux {lt : α → α → Bool} {x : α} :
    ∀ (l acc : List α), x ∈ l.foldl (fun acc a => stableInsert lt a acc) acc →
      x ∈ acc ∨ x ∈ l := by
  intro l
  induction l with
  | nil => intro acc h; exact Or.inl h
  | cons b bs ih =>
    intro acc h
    rcases ih (stableInsert lt b acc) h with h | h
    · rcases mem_stableInsert h with h | h
      · exact Or.inr (List.mem_cons.mpr (Or.inl h))
      · exact Or.inl h
    · exact Or.inr (List.mem_cons.mpr (Or.inr h))

theorem mem_stableSort {lt : α → α → Bool} {x : α} {l : List α}
    (h : x ∈ stableSort lt l) : x ∈ l := by
  rcases mem_stableSort_aux l [] h with h | h
  · simp at h
  · exact h

theorem adoptPct_pos {cur : ℚ} (c : Category) (h : 0 < cur) : 0 < adoptPct cur c := by
  unfold adoptPct
  split
  · next hp => exact div_pos hp (by norm_num)
  · exact h

theorem defaultRate_pos : (0 : ℚ) < defaultRate := by norm_num [defaultRate]

theorem fallbackResolve_pos (actives : List Category) (pn : String) (st : String × ℚ)
    (h : 0 < st.2) : 0 < (fallbackResolve actives pn st).2 := by
  unfold fallbackResolve
  cases hterm : findTermMatch actives pn TERM_MAP with
  | some c =>
    simp only [hterm]
    split
    · cases hkw : findKeywordMatch actives pn with
      | some c2 => exact adoptPct_pos c2 (adoptPct_pos c h)
      | none => exact adoptPct_pos c h
    · exact adoptPct_pos c h
  | none =>
    simp only [hterm]
    split
    · cases hkw : findKeywordMatch actives pn with
      | some c2 => exact adoptPct_pos c2 h
      | none => exact h
    · exact h

theorem resolveCategory_rate_pos (cats : List Category) (cat pn : String) :
    0 < (resolveCategory cats cat pn).2 := by
  unfold resolveCategory
  cases hm : explicitMatch cats (if cat = "" then "Uncategorized" else cat) with
  | some c =>
    simp only [hm]
    split
    · exact fallbackResolve_pos _ _ _ (adoptPct_pos c defaultRate_pos)
    · exact adoptPct_pos c defaultRate_pos
  | none =>
    simp only [hm]
    split
    · exact fallbackResolve_pos _ _ _ defaultRate_pos
    · exact defaultRate_pos

theorem find?_setTxnStatus (txns : List Txn) (n : Nat) (s : String) (tx : Txn)
    (h : txns.find? (fun t => t.tid = n) = some tx) :
    (setTxnStatus txns n s).find? (fun t => t.tid = n) = some { tx with status := s } := by
  induction txns with
  | nil => simp [List.find?] at h
  | cons t ts ih =>
    by_cases ht : t.tid = n
    · rw [List.find?_cons_of_pos _ (by simp [ht])] at h
      cases h
      simp [setTxnStatus, List.find?_cons_of_pos, ht]
    · rw [List.find?_cons_of_neg _ (by simp [ht])] at h
      have := ih h
      simp only [setTxnStatus, List.map_cons, if_neg ht] at this ⊢
      rw [List.find?_cons_of_neg _ (by simp [ht])]
      exact this

theorem smartMapValues_vocab : ∀ kv ∈ SMART_MAP, kv.2 ≠ "" ∧ kv.2 ∈ INDEX_VOCAB := by
  decide

theorem intercalateFour (a b c d : String) :
    String.intercalate "\n" [a, b, c, d] = a ++ "\n" ++ b ++ "\n" ++ c ++ "\n" ++ d := rfl

theorem specCanonicalRequest_intercalate (method path : String)
    (hs : List (String × String)) (payloadHash : String) :
    specCanonicalRequest method path hs payloadHash =
      String.intercalate "\n" [method, path, "", canonicalHeadersOf hs,
        signedHeadersOf hs, payloadHash] := rfl

theorem resolveSearchIndex_total_aux (s : String) :
    resolveSearchIndex s ≠ "" ∧ resolveSearchIndex s ∈ INDEX_VOCAB := by
  unfold resolveSearchIndex
  split
  · exact ⟨by decide, by decide⟩
  · cases h1 : SMART_MAP.find? (fun kv => kv.1 = s) with
    | some kv => exact smartMapValues_vocab kv (List.mem_of_find?_eq_some h1)
    | none =>
      simp only [h1]
      cases h2 : SMART_MAP.find? (fun kv => jsToLower kv.1 = jsToLower s) with
      | some kv => exact smartMapValues_vocab kv (List.mem_of_find?_eq_some h2)
      | none =>
        simp only [h2]
        cases h3 : (stableSort (fun a b => b.1.data.length < a.1.data.length) SMART_MAP).find?
            (fun kv => strIncludes (jsToLower s) (jsToLower kv.1)) with
        | some kv =>
          simp only [h3]
          exact smartMapValues_vocab kv (mem_stableSort (List.mem_of_find?_eq_some h3))
        | none => simp only [h3]; exact ⟨by decide, by decide⟩

/-! # Claim theorems -/

/-- C5 counterexample: `resolveSearchIndex` is not idempotent.  The input
`"Men"` maps to `"Apparel"`, but `"Apparel"` is not a key of the table and
contains no key as a substring, so a second application collapses it to
`"All"`. -/
theorem resolveSearchIndex_not_idempotent :
    resolveSearchIndex "Men" = "Apparel" ∧
    resolveSearchIndex "Apparel" = "All" ∧
    resolveSearchIndex (resolveSearchIndex "Men") ≠ resolveSearchIndex "Men" := by
  refine ⟨by decide, by decide, by decide⟩

/-- C5 (amended): `resolveSearchIndex` is total — on every input
(including the empty string, which models JS `null`/`undefined`) it
returns a non-empty value of the fixed search-index vocabulary, and the
no-mapping default is `All` — but it is not idempotent: some outputs
(such as `Apparel`) are not fixed points. -/
theorem resolveSearchIndex_total_not_idempotent :
    (∀ s : String, resolveSearchIndex s ≠ "" ∧ resolveSearchIndex s ∈ INDEX_VOCAB) ∧
    resolveSearchIndex "" = "All" ∧
    ¬ (∀ s : String, resolveSearchIndex (resolveSearchIndex s) = resolveSearchIndex s) := by
  refine ⟨resolveSearchIndex_total_aux, by decide, fun h => ?_⟩
  have := h "Men"
  revert this
  decide

/-- C5 witness: the totality part of the theorem evaluated at `Mobiles`. -/
theorem resolveSearchIndex_total_not_idempotent_witness :
    resolveSearchIndex "Mobiles" ≠ "" ∧ resolveSearchIndex "Mobiles" ∈ INDEX_VOCAB :=
  resolveSearchIndex_total_not_idempotent.1 "Mobiles"

/-- C4: whenever at least one of access key, secret key and partner tag is
absent (falsy `""`), `makeRequest` — and with it `searchItems`, `getItems`
and `getBrowseNodes` — returns the `MissingCredentials` failure and never
reaches the network call, for every transport outcome and payload. -/
theorem makeRequest_missing_credentials (c : Creds)
    (h : c.accessKey = "" ∨ c.secretKey = "" ∨ c.partnerTag = "") :
    ∀ (net : NetOutcome) (op : String) (payload : JVal) (keywords : String)
      (o : SearchOptions) (itemIds browseNodeIds : List String),
      makeRequest c op payload net = (missingCredsResult, false) ∧
      searchItems c keywords o net = (missingCredsResult, false) ∧
      getItems c itemIds net = (missingCredsResult, false) ∧
      getBrowseNodes c browseNodeIds net = (missingCredsResult, false) := by
  intro net op payload keywords o itemIds browseNodeIds
  have hb : (c.accessKey = "" || c.secretKey = "" || c.partnerTag = "") = true := by
    rcases h with h | h | h <;> simp [h]
  simp [makeRequest, searchItems, getItems, getBrowseNodes, hb]

/-- C4 witness: a credential set with an empty secret key short-circuits. -/
theorem makeRequest_missing_credentials_witness :
    makeRequest ⟨"AKIA", "", "tag-21", "www.amazon.in"⟩ "SearchItems" (.jobj [])
        (.resolved 200 (.json (.jobj []))) = (missingCredsResult, false) ∧
    getItems ⟨"AKIA", "", "tag-21", "www.amazon.in"⟩ ["B01XYZ"]
        (.resolved 200 (.json (.jobj []))) = (missingCredsResult, false) := by
  have h := makeRequest_missing_credentials ⟨"AKIA", "", "tag-21", "www.amazon.in"⟩
    (Or.inr (Or.inl rfl)) (.resolved 200 (.json (.jobj []))) "SearchItems" (.jobj [])
    "" {} ["B01XYZ"] []
  exact ⟨h.1, h.2.2.1⟩

/-- C1 counterexample: a delivered HTML response with status 401 (accepted
by `validateStatus`, hence handled on the resolved path) is classified
`InvalidResponse`, not `Unauthorized` as the claimed table demands — the
401/403/429/≥500 table lives only in the exception path, which such a
response never reaches. -/
theorem makeRequest_html_401_invalid_response :
    validateStatus 401 = true ∧
    (makeRequest ⟨"AK", "SK", "PT", "www.amazon.in"⟩ "SearchItems" (.jobj [])
        (.resolved 401 (.str "<!DOCTYPE html><html><head><title>Denied</title></head></html>"))).1.success
      = false ∧
    (makeRequest ⟨"AK", "SK", "PT", "www.amazon.in"⟩ "SearchItems" (.jobj [])
        (.resolved 401 (.str "<!DOCTYPE html><html><head><title>Denied</title></head></html>"))).1.errKind
      = some "InvalidResponse" ∧
    some "InvalidResponse" ≠ some "Unauthorized" := by
  refine ⟨rfl, by decide, by decide, by decide⟩

/-- C1 (amended): an HTML body delivered with any transport-accepted
status is always reported as a failure whose human message is the trimmed
`<title>` text when one is present; on this resolved path the errorKind is
only `ServiceUnavailable` (503), `BadRequest` (400) or `InvalidResponse`
(everything else, 401/403/429/≥500 included); the claimed full table
applies exclusively on the exception path that carries a response the
transport refused (status ≥ 600). -/
theorem makeRequest_html_classification (c : Creds)
    (ha : c.accessKey ≠ "") (hsk : c.secretKey ≠ "") (hpt : c.partnerTag ≠ "")
    (op : String) (payload : JVal) (status : Nat) (body : String)
    (hhtml : isHtmlBody body = true) (hv : validateStatus status = true)
    (h0 : status ≠ 0) :
    (makeRequest c op payload (.resolved status (.str body))).1.success = false ∧
    (makeRequest c op payload (.resolved status (.str body))).1.statusCode = some status ∧
    (makeRequest c op payload (.resolved status (.str body))).1.errKind
      = some (resolvedHtmlKind status) ∧
    (∀ t, extractTitle body = some t → jsTrim t ≠ "" →
      (makeRequest c op payload (.resolved status (.str body))).1.errMessage
        = some (jsTrim t)) ∧
    (∀ (status2 : Nat) (body2 : String), isHtmlBody body2 = true →
      validateStatus status2 = false →
      (makeRequest c op payload (.errResponse status2 (.str body2))).1.success = false ∧
      (makeRequest c op payload (.errResponse status2 (.str body2))).1.errKind
        = some (claimedErrorKind status2)) := by
  have hb : (c.accessKey = "" || c.secretKey = "" || c.partnerTag = "") = false := by
    simp [ha, hsk, hpt]
  simp only [makeRequest, hb, Bool.false_eq_true, if_false]
  refine ⟨?_, ?_, ?_, ?_, ?_⟩
  · simp [handleResolvedResponse, hhtml]
  · simp [handleResolvedResponse, hhtml, h0]
  · simp only [handleResolvedResponse, hhtml, if_true, if_neg h0, ApiResult.errKind,
      resolvedHtmlKind]
  · intro t ht htne
    simp only [handleResolvedResponse, hhtml, if_true, if_neg h0, ht, ApiResult.errMessage]
    by_cases h503 : status = 503 <;> by_cases h400 : status = 400 <;>
      simp [h503, h400, orElseMsg, htne]
  · intro status2 body2 hhtml2 hv2
    constructor
    · simp [handleErrorResponse, hhtml2]
    · simp only [handleErrorResponse, hhtml2, if_true, ApiResult.errKind, claimedErrorKind]

/-- C1 witness: a 503 HTML page on the resolved path is a
`ServiceUnavailable` failure with its title as message, and a 600-status
HTML page on the exception path is classified `ServerError`. -/
theorem makeRequest_html_classification_witness :
    ("AK" : String) ≠ "" ∧ isHtmlBody "<!DOCTYPE html><title>Down</title>" = true ∧
    validateStatus 503 = true ∧
    (makeRequest ⟨"AK", "SK", "PT", "www.amazon.in"⟩ "SearchItems" (.jobj [])
        (.resolved 503 (.str "<!DOCTYPE html><title>Down</title>"))).1.errKind
      = some (resolvedHtmlKind 503) ∧
    (makeRequest ⟨"AK", "SK", "PT", "www.amazon.in"⟩ "SearchItems" (.jobj [])
        (.resolved 503 (.str "<!DOCTYPE html><title>Down</title>"))).1.errMessage
      = some (jsTrim "Down") ∧
    (makeRequest ⟨"AK", "SK", "PT", "www.amazon.in"⟩ "SearchItems" (.jobj [])
        (.errResponse 600 (.str "<!DOCTYPE html><title>Down</title>"))).1.errKind
      = some (claimedErrorKind 600) := by
  have h := makeRequest_html_classification ⟨"AK", "SK", "PT", "www.amazon.in"⟩
    (by decide) (by decide) (by decide) "SearchItems" (.jobj []) 503
    "<!DOCTYPE html><title>Down</title>" (by decide) (by decide) (by decide)
  exact ⟨by decide, by decide, by decide, h.2.2.1,
    h.2.2.2.1 "Down" (by decide) (by decide),
    (h.2.2.2.2 600 "<!DOCTYPE html><title>Down</title>" (by decide) (by decide)).2⟩

/-- C8 counterexample: a delivered 404 response whose JSON body carries no
`Errors` array is reported as a *success* — the resolved path never looks
at the status code, so a status ≥ 400 with a plain JSON body is not turned
into a failure, let alone one passing the body through as error detail. -/
theorem makeRequest_json_404_reported_success :
    validateStatus 404 = true ∧ 400 ≤ 404 ∧
    (makeRequest ⟨"AK", "SK", "PT", "www.amazon.in"⟩ "GetItems" (.jobj [])
        (.resolved 404 (.json (.jobj [("message", .jstr "not found")])))).1.success
      = true := by
  refine ⟨rfl, by decide, by decide⟩

/-- C8 (amended): on the resolved path (every transport-delivered status)
a JSON body is reported as failure exactly when it carries a non-empty
`Errors` array — the first element becomes the error, the whole body stays
as data — and as success otherwise, regardless of the status code; the
claimed raw pass-through of a JSON error body happens only on the
exception path (a response the transport refused, status ≥ 600).  No path
of `makeRequest` escapes the tagged-result shape. -/
theorem makeRequest_json_handling (c : Creds)
    (ha : c.accessKey ≠ "") (hsk : c.secretKey ≠ "") (hpt : c.partnerTag ≠ "")
    (op : String) (payload : JVal) (status : Nat) (j : JVal)
    (hv : validateStatus status = true) :
    (∀ e, j.firstError = some e →
      (makeRequest c op payload (.resolved status (.json j))).1
        = { success := false, error := some (.pass e), rdata := some (.json j) }) ∧
    (j.errorsNonempty = false →
      (makeRequest c op payload (.resolved status (.json j))).1
        = { success := true, rdata := some (.json j) }) ∧
    (∀ (status2 : Nat) (j2 : JVal), validateStatus status2 = false →
      j2.isObjNonNull = true →
      (makeRequest c op payload (.errResponse status2 (.json j2))).1
        = { success := false, error := some (.pass j2), statusCode := some status2 }) := by
  have hb : (c.accessKey = "" || c.secretKey = "" || c.partnerTag = "") = false := by
    simp [ha, hsk, hpt]
  simp only [makeRequest, hb, Bool.false_eq_true, if_false]
  refine ⟨?_, ?_, ?_⟩
  · intro e he
    simp only [handleResolvedResponse]
    unfold JVal.firstError at he
    split at he
    · cases he; rfl
    · exact absurd he (by simp)
  · intro hne
    simp only [handleResolvedResponse]
    unfold JVal.errorsNonempty at hne
    split at hne
    · cases hne
    · rfl
  · intro status2 j2 hv2 hobj
    simp [handleErrorResponse, hobj]

/-- C8 witness: a 200-status body embedding a non-empty `Errors` array is
a failure carrying its first element, a plain 404 JSON body resolves to a
success, and a 600-status JSON object is passed through on the exception
path. -/
theorem makeRequest_json_handling_witness :
    ("AK" : String) ≠ "" ∧ validateStatus 200 = true ∧
    (JVal.jobj [("Errors", .jarr [.jstr "boom"])]).firstError = some (.jstr "boom") ∧
    (makeRequest ⟨"AK", "SK", "PT", "www.amazon.in"⟩ "GetItems" (.jobj [])
        (.resolved 200 (.json (.jobj [("Errors", .jarr [.jstr "boom"])])))).1
      = { success := false, error := some (.pass (.jstr "boom")),
          rdata := some (.json (.jobj [("Errors", .jarr [.jstr "boom"])])) } ∧
    (makeRequest ⟨"AK", "SK", "PT", "www.amazon.in"⟩ "GetItems" (.jobj [])
        (.resolved 404 (.json (.jobj [("message", .jstr "no")])))).1
      = { success := true, rdata := some (.json (.jobj [("message", .jstr "no")])) } ∧
    (makeRequest ⟨"AK", "SK", "PT", "www.amazon.in"⟩ "GetItems" (.jobj [])
        (.errResponse 600 (.json (.jobj [("__type", .jstr "x")])))).1
      = { success := false, error := some (.pass (.jobj [("__type", .jstr "x")])),
          statusCode := some 600 } := by
  have h1 := makeRequest_json_handling ⟨"AK", "SK", "PT", "www.amazon.in"⟩
    (by decide) (by decide) (by decide) "GetItems" (.jobj []) 200
    (.jobj [("Errors", .jarr [.jstr "boom"])]) (by decide)
  have h2 := makeRequest_json_handling ⟨"AK", "SK", "PT", "www.amazon.in"⟩
    (by decide) (by decide) (by decide) "GetItems" (.jobj []) 404
    (.jobj [("message", .jstr "no")]) (by decide)
  exact ⟨by decide, by decide, rfl,
    h1.1 (.jstr "boom") rfl,
    h2.2.1 rfl,
    (h1.2.2 600 (.jobj [("__type", .jstr "x")]) (by decide) rfl)⟩

/-- C9: for every signed request, the canonical request produced by
`generateSignature` is exactly the newline-joined sequence of method,
path, empty query string, canonical header block (lowercased sorted
`name:trimmed-value` lines), semicolon-joined signed-headers list, and
body hash; and the string-to-sign is exactly the newline-joined sequence
of algorithm, timestamp, `date/region/service/aws4_request` scope (date =
first 8 characters of the timestamp), and the hash of that canonical
request. -/
theorem generateSignature_canonical_format (region accessKey secretKey : String)
    (sha256Hex : String → String) (hmac : String → String → String)
    (hexOf : String → String) (method path : String)
    (headers : List (String × String)) (payload host : String) (ts : String)
    (hts : extractTimestamp headers = some ts) :
    (generateSignature region accessKey secretKey sha256Hex hmac hexOf
        method path headers payload host).map SigOutput.canonicalRequest
      = some (specCanonicalRequest method path (withHostHeader headers host)
          (sha256Hex payload)) ∧
    (generateSignature region accessKey secretKey sha256Hex hmac hexOf
        method path headers payload host).map SigOutput.stringToSign
      = some (specStringToSign ts region
          (specCanonicalRequest method path (withHostHeader headers host)
            (sha256Hex payload)) sha256Hex) := by
  unfold generateSignature
  rw [hts]
  refine ⟨rfl, ?_⟩
  simp only [Option.map_some]
  unfold specStringToSign
  rw [specCanonicalRequest_intercalate, intercalateFour]
  simp [String.append_assoc]

/-- C9 witness: concrete headers carrying an `X-Amz-Date` timestamp. -/
theorem generateSignature_canonical_format_witness :
    extractTimestamp [("Content-Type", "application/json; charset=utf-8"),
        ("X-Amz-Date", "20240101T120000Z")] = some "20240101T120000Z" ∧
    (generateSignature "eu-west-1" "AK" "SK" (fun s => "sha(" ++ s ++ ")")
        (fun k m => "hmac(" ++ k ++ "," ++ m ++ ")") (fun s => "hex(" ++ s ++ ")")
        "POST" "/paapi5/searchitems"
        [("Content-Type", "application/json; charset=utf-8"),
         ("X-Amz-Date", "20240101T120000Z")]
        "null" "webservices.amazon.in").map SigOutput.canonicalRequest
      = some (specCanonicalRequest "POST" "/paapi5/searchitems"
          (withHostHeader [("Content-Type", "application/json; charset=utf-8"),
            ("X-Amz-Date", "20240101T120000Z")] "webservices.amazon.in")
          ("sha(" ++ "null" ++ ")")) := by
  refine ⟨rfl, ?_⟩
  exact (generateSignature_canonical_format "eu-west-1" "AK" "SK"
    (fun s => "sha(" ++ s ++ ")") (fun k m => "hmac(" ++ k ++ "," ++ m ++ ")")
    (fun s => "hex(" ++ s ++ ")") "POST" "/paapi5/searchitems"
    [("Content-Type", "application/json; charset=utf-8"),
     ("X-Amz-Date", "20240101T120000Z")]
    "null" "webservices.amazon.in" "20240101T120000Z" rfl).1

/-- C2: a tracked click with an attributed agent opens exactly one
commission transaction when the sanitized price is positive — in status
`pending`, of type `earnings`, owned by the agent, with amount equal to
price × resolved fraction (the resolved category percentage / 100, or the
2% default) — and none at all when the price is zero. -/
theorem trackProductClick_pending_commission (db : DB) (principal : Option Principal)
    (req : TrackReq) (a : Nat)
    (hasin : req.asin ≠ "") (hname : req.productName ≠ "")
    (hagent : resolveAgent db principal req.providedAgentId req.referralCode = some a) :
    (0 < effectivePrice req.price →
      ∃ t, (trackProductClick db principal req).txn = some t ∧
        t.status = "pending" ∧ t.ttype = "earnings" ∧ t.user = a ∧
        t.amount = effectivePrice req.price *
          (resolveCategory db.categories req.category req.productName).2) ∧
    (effectivePrice req.price = 0 →
      (trackProductClick db principal req).txn = none) := by
  have hcond : (req.asin = "" || req.productName = "") = false := by
    simp [hasin, hname]
  constructor
  · intro hpos
    have hamt : 0 < effectivePrice req.price *
        (resolveCategory db.categories req.category req.productName).2 :=
      mul_pos hpos (resolveCategory_rate_pos db.categories req.category req.productName)
    refine ⟨{ tid := 0, user := a, ttype := "earnings",
              amount := effectivePrice req.price *
                (resolveCategory db.categories req.category req.productName).2,
              status := "pending",
              description := "Pending Commission: " ++ req.productName,
              referenceId := some 0, referenceModel := "ProductClick" },
            ?_, rfl, rfl, rfl, rfl⟩
    simp only [trackProductClick, hcond, Bool.false_eq_true, if_false, hagent]
    rw [if_pos hpos, if_pos hamt]
  · intro hzero
    simp only [trackProductClick, hcond, Bool.false_eq_true, if_false, hagent, hzero]
    rw [if_neg (lt_irrefl 0)]

/-- C2 witness: a self-attributed agent click on a 100-priced item
satisfies the theorem's hypotheses, so one pending `earnings` transaction
at `price × rate` is opened. -/
theorem trackProductClick_pending_commission_witness :
    ("B01" : String) ≠ "" ∧ ("Plain Item" : String) ≠ "" ∧
    resolveAgent ⟨[], [⟨"Books", "Books", 5, [], "active"⟩]⟩ (some ⟨7, "agent"⟩) none ""
      = some 7 ∧
    ((0 < effectivePrice (.pnum 100) →
      ∃ t, (trackProductClick ⟨[], [⟨"Books", "Books", 5, [], "active"⟩]⟩
            (some ⟨7, "agent"⟩) ⟨"B01", "Plain Item", "Books", .pnum 100, "", none⟩).txn
          = some t ∧
        t.status = "pending" ∧ t.ttype = "earnings" ∧ t.user = 7 ∧
        t.amount = effectivePrice (.pnum 100) *
          (resolveCategory [⟨"Books", "Books", 5, [], "active"⟩] "Books" "Plain Item").2) ∧
     (effectivePrice (.pnum 100) = 0 →
      (trackProductClick ⟨[], [⟨"Books", "Books", 5, [], "active"⟩]⟩
          (some ⟨7, "agent"⟩) ⟨"B01", "Plain Item", "Books", .pnum 100, "", none⟩).txn
        = none)) :=
  ⟨by decide, by decide, by decide,
   trackProductClick_pending_commission ⟨[], [⟨"Books", "Books", 5, [], "active"⟩]⟩
     (some ⟨7, "agent"⟩) ⟨"B01", "Plain Item", "Books", .pnum 100, "", none⟩ 7
     (by decide) (by decide) (by decide)⟩

/-- C3 counterexample, in two parts.  (1) The input category `Books`
exactly matches the active rule `Books` (2%), yet the resolution is *not*
that rule verbatim: because the adopted fraction equals the 2% default,
the term-sniffing fallback still runs and a product name containing
`fresh` hands the click to the `Grocery` rule at 8%.  (2) An input equal
to a rule's remote search-index value (`Luggage`) is not adopted at all:
the search-index lookup goes through the Smart-Map resolution of the
input, which maps `Luggage` to `All`. -/
theorem resolveCategory_explicit_match_counterexample :
    explicitNameMatch [⟨"Books", "Books", 2, [], "active"⟩,
        ⟨"Grocery", "GroceryAndGourmetFood", 8, [], "active"⟩] "Books"
      = some ⟨"Books", "Books", 2, [], "active"⟩ ∧
    resolveCategory [⟨"Books", "Books", 2, [], "active"⟩,
        ⟨"Grocery", "GroceryAndGourmetFood", 8, [], "active"⟩] "Books" "Fresh Juice"
      = ("Grocery", 8 / 100) ∧
    (("Grocery", (8 : ℚ) / 100) ≠ ("Books", 2 / 100)) ∧
    resolveSearchIndex "Luggage" = "All" ∧
    resolveCategory [⟨"Bags & Luggage", "Luggage", 5, [], "active"⟩] "Luggage" "Plain Item"
      = ("Luggage", defaultRate) ∧
    (("Luggage", defaultRate) ≠ ("Bags & Luggage", (5 : ℚ) / 100)) := by
  refine ⟨by decide, ?_, by simp, by decide, ?_, by simp⟩
  · have hm : explicitMatch [⟨"Books", "Books", 2, [], "active"⟩,
        ⟨"Grocery", "GroceryAndGourmetFood", 8, [], "active"⟩]
        (if ("Books" : String) = "" then "Uncategorized" else "Books")
        = some ⟨"Books", "Books", 2, [], "active"⟩ := by decide
    have hterm : findTermMatch
        (([⟨"Books", "Books", 2, [], "active"⟩,
           ⟨"Grocery", "GroceryAndGourmetFood", 8, [], "active"⟩] : List Category).filter
          (fun c => c.status = "active")) "Fresh Juice" TERM_MAP
        = some ⟨"Grocery", "GroceryAndGourmetFood", 8, [], "active"⟩ := by decide
    have h1 : adoptPct defaultRate ⟨"Books", "Books", 2, [], "active"⟩ = defaultRate := by
      norm_num [adoptPct, defaultRate]
    unfold resolveCategory
    simp only [hm, h1]
    rw [if_pos (by simp)]
    unfold fallbackResolve
    simp only [hterm]
    rw [if_neg (by decide)]
    refine Prod.ext rfl ?_
    norm_num [adoptPct, defaultRate]
  · have hm2 : explicitMatch [⟨"Bags & Luggage", "Luggage", 5, [], "active"⟩]
        (if ("Luggage" : String) = "" then "Uncategorized" else "Luggage") = none := by decide
    have hterm2 : findTermMatch
        (([⟨"Bags & Luggage", "Luggage", 5, [], "active"⟩] : List Category).filter
          (fun c => c.status = "active")) "Plain Item" TERM_MAP = none := by decide
    unfold resolveCategory
    simp only [hm2]
    rw [if_pos (by simp)]
    unfold fallbackResolve
    simp only [hterm2]
    rw [if_neg (by decide)]
    rfl

/-- C3 (amended): when the input category is present, not a placeholder,
and the explicit phase finds an active rule — by case-insensitive
name/synonym match, or by search-index equality with the *Smart-Map
resolution* of the input — whose percentage is positive and differs from
the 2% default, the resolution adopts that rule's percentage verbatim and
its canonical name, and the product-name term-sniffing and keyword-sweep
fallbacks are bypassed entirely (the product name is irrelevant).  When
the adopted percentage equals the default 2%, the fallbacks still run. -/
theorem resolveCategory_explicit_match_verbatim (cats : List Category)
    (cat : String) (r : Category)
    (hcat : cat ≠ "Uncategorized" ∧ cat ≠ "Unknown" ∧ cat ≠ "")
    (hmatch : explicitMatch cats cat = some r)
    (hactive : r.status = "active") (hpos : 0 < r.percentage)
    (hne : r.percentage ≠ 2) :
    ∀ productName, resolveCategory cats cat productName = (r.name, r.percentage / 100) := by
  intro productName
  have hfc : (if cat = "" then "Uncategorized" else cat) = cat := if_neg hcat.2.2
  have hadopt : adoptPct defaultRate r = r.percentage / 100 := if_pos hpos
  have hnd : ¬ (r.percentage / 100 = defaultRate) := by
    intro h
    rw [defaultRate, div_eq_div_iff (by norm_num) (by norm_num)] at h
    exact hne (by linarith)
  unfold resolveCategory
  simp only [hfc, hmatch, hadopt]
  rw [if_neg (by simpa using hnd)]

/-- C3 witness: an explicit match on the active 5% rule `Books` resolves
verbatim for every product name. -/
theorem resolveCategory_explicit_match_verbatim_witness :
    (("Books" : String) ≠ "Uncategorized" ∧ ("Books" : String) ≠ "Unknown" ∧
      ("Books" : String) ≠ "") ∧
    explicitMatch [⟨"Books", "Books", 5, [], "active"⟩] "Books"
      = some ⟨"Books", "Books", 5, [], "active"⟩ ∧
    (0 : ℚ) < 5 ∧ (5 : ℚ) ≠ 2 ∧
    ∀ productName, resolveCategory [⟨"Books", "Books", 5, [], "active"⟩] "Books" productName
      = ("Books", 5 / 100) := by
  refine ⟨⟨by decide, by decide, by decide⟩, by decide, by norm_num, by norm_num, ?_⟩
  exact resolveCategory_explicit_match_verbatim [⟨"Books", "Books", 5, [], "active"⟩]
    "Books" ⟨"Books", "Books", 5, [], "active"⟩
    ⟨by decide, by decide, by decide⟩ (by decide) rfl (by norm_num) (by norm_num)

/-- C10: a string price contributes only its digit and dot characters
(sanitizing the string first changes nothing), an absent price is 0, and a
string whose cleaned form does not parse still yields a successfully
recorded click with price 0 and no commission transaction. -/
theorem trackProductClick_price_sanitization :
    (∀ s : String, effectivePrice (.pstr s) = effectivePrice (.pstr (sanitizeNumeric s))) ∧
    effectivePrice .absent = 0 ∧
    ∀ (db : DB) (principal : Option Principal) (req : TrackReq) (s : String),
      req.price = .pstr s → req.asin ≠ "" → req.productName ≠ "" →
      parseFloatDigitsDot (sanitizeNumeric s) = none →
      (trackProductClick db principal req).ok = true ∧
      (∃ cl, (trackProductClick db principal req).click = some cl ∧ cl.price = 0) ∧
      (trackProductClick db principal req).txn = none := by
  have hsan : ∀ s : String, sanitizeNumeric (sanitizeNumeric s) = sanitizeNumeric s := by
    intro s
    simp [sanitizeNumeric, List.filter_filter]
  refine ⟨?_, rfl, ?_⟩
  · intro s
    show (parseFloatDigitsDot (sanitizeNumeric s)).getD 0
      = (parseFloatDigitsDot (sanitizeNumeric (sanitizeNumeric s))).getD 0
    rw [hsan]
  · intro db principal req s hps hasin hname hfail
    have hprice : effectivePrice req.price = 0 := by
      rw [hps]
      simp [effectivePrice, hfail]
    have hcond : (req.asin = "" || req.productName = "") = false := by
      simp [hasin, hname]
    refine ⟨?_, ?_, ?_⟩
    · simp only [trackProductClick, hcond, Bool.false_eq_true, if_false]
    · simp only [trackProductClick, hcond, Bool.false_eq_true, if_false]
      exact ⟨_, rfl, hprice⟩
    · simp only [trackProductClick, hcond, Bool.false_eq_true, if_false, hprice]
      cases resolveAgent db principal req.providedAgentId req.referralCode with
      | some a => simp
      | none => rfl

/-- C10 witness: the string price `"N/A"` cleans to an unparsable string,
so the click is recorded with price 0 and no transaction. -/
theorem trackProductClick_price_sanitization_witness :
    (⟨"B01", "Plain Item", "Books", .pstr "N/A", "", none⟩ : TrackReq).price = .pstr "N/A" ∧
    ("B01" : String) ≠ "" ∧ ("Plain Item" : String) ≠ "" ∧
    parseFloatDigitsDot (sanitizeNumeric "N/A") = none ∧
    ((trackProductClick ⟨[], []⟩ none ⟨"B01", "Plain Item", "Books", .pstr "N/A", "", none⟩).ok
        = true ∧
      (∃ cl, (trackProductClick ⟨[], []⟩ none
          ⟨"B01", "Plain Item", "Books", .pstr "N/A", "", none⟩).click = some cl ∧
        cl.price = 0) ∧
      (trackProductClick ⟨[], []⟩ none
          ⟨"B01", "Plain Item", "Books", .pstr "N/A", "", none⟩).txn = none) :=
  ⟨rfl, by decide, by decide, by decide,
   trackProductClick_price_sanitization.2.2 ⟨[], []⟩ none
     ⟨"B01", "Plain Item", "Books", .pstr "N/A", "", none⟩ "N/A"
     rfl (by decide) (by decide) (by decide)⟩

/-- C6: the administrative status update is guarded by read-check-write on
`pending`: a transaction whose status is not `pending` is rejected as
already processed with the whole state (statuses, amounts, balances,
lifetime earnings) untouched; the state changes only for a `pending`
transaction; and after a successful completion, re-applying the operation
is rejected and changes nothing, so the balance credit is applied at most
once. -/
theorem updateTransactionStatus_pending_guard (st : AdminState) (txId : Nat)
    (status : String) (tx : Txn)
    (hfind : st.txns.find? (fun t => t.tid = txId) = some tx) :
    (tx.status ≠ "pending" →
      updateTransactionStatus st txId status = (.alreadyProcessed, st)) ∧
    ((updateTransactionStatus st txId status).2 ≠ st → tx.status = "pending") ∧
    (tx.status = "pending" →
      updateTransactionStatus (updateTransactionStatus st txId "completed").2 txId "completed"
        = (.alreadyProcessed, (updateTransactionStatus st txId "completed").2)) := by
  have hA : tx.status ≠ "pending" →
      updateTransactionStatus st txId status = (.alreadyProcessed, st) := by
    intro h
    simp [updateTransactionStatus, hfind, h]
  refine ⟨hA, ?_, ?_⟩
  · intro h
    by_contra hn
    rw [hA hn] at h
    exact h rfl
  · intro hp
    have h1 : updateTransactionStatus st txId "completed" =
        (.ok, ⟨if tx.ttype = "earnings" then creditUser st.users tx.user tx.amount
               else st.users,
               setTxnStatus st.txns txId "completed"⟩) := by
      simp [updateTransactionStatus, hfind, hp]
    have h2 : ((updateTransactionStatus st txId "completed").2).txns.find?
        (fun t => t.tid = txId) = some { tx with status := "completed" } := by
      rw [h1]
      exact find?_setTxnStatus st.txns txId "completed" tx hfind
    generalize hgen : (updateTransactionStatus st txId "completed").2 = st1 at h2 ⊢
    simp [updateTransactionStatus, h2]

/-- C6 witness: a `completed` transaction is rejected untouched, and a
`pending` one, once completed, cannot be completed a second time. -/
theorem updateTransactionStatus_pending_guard_witness :
    (([⟨5, 1, "earnings", 10, "completed", "d", some 9, "ProductClick"⟩] : List Txn).find?
        (fun t => t.tid = 5) = some ⟨5, 1, "earnings", 10, "completed", "d", some 9, "ProductClick"⟩) ∧
    ("completed" : String) ≠ "pending" ∧
    updateTransactionStatus ⟨[⟨1, "agent", "AG", none, 0, 0⟩],
        [⟨5, 1, "earnings", 10, "completed", "d", some 9, "ProductClick"⟩]⟩ 5 "completed"
      = (.alreadyProcessed, ⟨[⟨1, "agent", "AG", none, 0, 0⟩],
          [⟨5, 1, "earnings", 10, "completed", "d", some 9, "ProductClick"⟩]⟩) ∧
    (([⟨6, 1, "earnings", 10, "pending", "d", some 9, "ProductClick"⟩] : List Txn).find?
        (fun t => t.tid = 6) = some ⟨6, 1, "earnings", 10, "pending", "d", some 9, "ProductClick"⟩) ∧
    updateTransactionStatus
        (updateTransactionStatus ⟨[⟨1, "agent", "AG", none, 0, 0⟩],
            [⟨6, 1, "earnings", 10, "pending", "d", some 9, "ProductClick"⟩]⟩ 6 "completed").2
        6 "completed"
      = (.alreadyProcessed,
         (updateTransactionStatus ⟨[⟨1, "agent", "AG", none, 0, 0⟩],
             [⟨6, 1, "earnings", 10, "pending", "d", some 9, "ProductClick"⟩]⟩ 6 "completed").2) := by
  refine ⟨by decide, by decide, ?_, by decide, ?_⟩
  · exact (updateTransactionStatus_pending_guard
      ⟨[⟨1, "agent", "AG", none, 0, 0⟩],
       [⟨5, 1, "earnings", 10, "completed", "d", some 9, "ProductClick"⟩]⟩ 5 "completed"
      ⟨5, 1, "earnings", 10, "completed", "d", some 9, "ProductClick"⟩ (by decide)).1
      (by decide)
  · exact (updateTransactionStatus_pending_guard
      ⟨[⟨1, "agent", "AG", none, 0, 0⟩],
       [⟨6, 1, "earnings", 10, "pending", "d", some 9, "ProductClick"⟩]⟩ 6 "completed"
      ⟨6, 1, "earnings", 10, "pending", "d", some 9, "ProductClick"⟩ (by decide)).2.2 rfl

/-- C7 counterexample: the administrative rate override adjusts the
linked transaction even when it is no longer `pending` — here a
`completed` transaction of amount 10 is silently rewritten to amount 5
(its status staying `completed`) by an override to 5%. -/
theorem updateClickCommission_adjusts_nonpending :
    (updateClickCommission [⟨3, none, "B0", "Item", "Books", 100, some 7, 0⟩]
        [⟨1, 7, "earnings", 10, "completed", "d", some 3, "ProductClick"⟩] 3 "5").resp
      = .ok ∧
    ((updateClickCommission [⟨3, none, "B0", "Item", "Books", 100, some 7, 0⟩]
        [⟨1, 7, "earnings", 10, "completed", "d", some 3, "ProductClick"⟩] 3 "5").txn.map
      Txn.status) = some "completed" ∧
    ((updateClickCommission [⟨3, none, "B0", "Item", "Books", 100, some 7, 0⟩]
        [⟨1, 7, "earnings", 10, "completed", "d", some 3, "ProductClick"⟩] 3 "5").txn.map
      Txn.amount) = some 5 ∧
    ((5 : ℚ) ≠ 10) := by
  have hp : parseFloatDigitsDot (sanitizeNumeric "5") = some 5 := by decide
  have hc : ([⟨3, none, "B0", "Item", "Books", 100, some 7, 0⟩] : List Click).find?
      (fun c => c.cid = 3) = some ⟨3, none, "B0", "Item", "Books", 100, some 7, 0⟩ := by decide
  have ht : ([⟨1, 7, "earnings", 10, "completed", "d", some 3, "ProductClick"⟩] : List Txn).find?
      (fun t => t.referenceId = some 3 && t.referenceModel = "ProductClick")
      = some ⟨1, 7, "earnings", 10, "completed", "d", some 3, "ProductClick"⟩ := by decide
  have hpos : (0 : ℚ) < 100 * (5 / 100) := by norm_num
  simp only [updateClickCommission, hp, hc, ht]
  rw [if_pos hpos]
  refine ⟨rfl, rfl, ?_, by norm_num⟩
  simp only [Option.map_some]
  norm_num

/-- C7 (amended): with a valid rate input (read as a percentage and
stored as a fraction) and an existing click, the override always sets the
click's `commissionRate` to the new fraction; a linked transaction —
regardless of its current status — has its amount overwritten with
`price × newFraction` when positive, and is moved to `failed` with amount
0 otherwise; a missing transaction is created in `pending` exactly when
the new amount is positive and the click has an attributed agent. -/
theorem updateClickCommission_behavior (clicks : List Click) (txns : List Txn)
    (clickId : Nat) (rateInput : String) (p : ℚ) (click : Click)
    (hp : parseFloatDigitsDot (sanitizeNumeric rateInput) = some p)
    (hclick : clicks.find? (fun c => c.cid = clickId) = some click) :
    (updateClickCommission clicks txns clickId rateInput).resp = .ok ∧
    (updateClickCommission clicks txns clickId rateInput).click
      = some { click with commissionRate := p / 100 } ∧
    (∀ t, txns.find? (fun t => t.referenceId = some click.cid
        && t.referenceModel = "ProductClick") = some t →
      (0 < click.price * (p / 100) →
        (updateClickCommission clicks txns clickId rateInput).txn
          = some { t with
              amount := click.price * (p / 100),
              description := updatedDescription (p / 100) click.productName " [Updated]" } ∧
        (updateClickCommission clicks txns clickId rateInput).created = false) ∧
      (¬ 0 < click.price * (p / 100) →
        (updateClickCommission clicks txns clickId rateInput).txn
          = some { t with amount := 0, status := "failed" } ∧
        (updateClickCommission clicks txns clickId rateInput).created = false)) ∧
    (txns.find? (fun t => t.referenceId = some click.cid
        && t.referenceModel = "ProductClick") = none →
      (0 < click.price * (p / 100) → click.agent.isSome = true →
        ∃ t, (updateClickCommission clicks txns clickId rateInput).txn = some t ∧
          t.status = "pending" ∧ t.amount = click.price * (p / 100) ∧
          (updateClickCommission clicks txns clickId rateInput).created = true) ∧
      (¬ (0 < click.price * (p / 100) ∧ click.agent.isSome = true) →
        (updateClickCommission clicks txns clickId rateInput).txn = none ∧
        (updateClickCommission clicks txns clickId rateInput).created = false)) := by
  refine ⟨?_, ?_, ?_, ?_⟩
  · simp only [updateClickCommission, hp, hclick]
    cases ht : txns.find? (fun t => t.referenceId = some click.cid
        && t.referenceModel = "ProductClick") with
    | some t =>
      by_cases hpos : click.price * (p / 100) > 0
      · simp only [if_pos hpos]
      · simp only [if_neg hpos]
    | none =>
      by_cases hca : (decide (click.price * (p / 100) > 0) && click.agent.isSome) = true
      · simp only [if_pos hca]
      · simp only [if_neg hca]
  · simp only [updateClickCommission, hp, hclick]
    cases ht : txns.find? (fun t => t.referenceId = some click.cid
        && t.referenceModel = "ProductClick") with
    | some t =>
      by_cases hpos : click.price * (p / 100) > 0
      · simp only [if_pos hpos]
      · simp only [if_neg hpos]
    | none =>
      by_cases hca : (decide (click.price * (p / 100) > 0) && click.agent.isSome) = true
      · simp only [if_pos hca]
      · simp only [if_neg hca]
  · intro t ht
    simp only [updateClickCommission, hp, hclick, ht]
    constructor
    · intro hpos
      simp [if_pos hpos]
    · intro hneg
      simp [if_neg hneg]
  · intro ht
    simp only [updateClickCommission, hp, hclick, ht]
    constructor
    · intro hpos hagent
      simp [if_pos (show 0 < click.price * (p / 100) ∧ click.agent.isSome = true
        from ⟨hpos, hagent⟩)]
    · intro hneg
      simp [if_neg hneg]

/-- C7 witness: a 5% override on a 100-priced click with a linked pending
transaction rewrites its amount to 5. -/
theorem updateClickCommission_behavior_witness :
    parseFloatDigitsDot (sanitizeNumeric "5") = some 5 ∧
    ([⟨3, none, "B0", "Item", "Books", 100, some 7, 0⟩] : List Click).find?
        (fun c => c.cid = 3) = some ⟨3, none, "B0", "Item", "Books", 100, some 7, 0⟩ ∧
    (updateClickCommission [⟨3, none, "B0", "Item", "Books", 100, some 7, 0⟩]
        [⟨1, 7, "earnings", 10, "pending", "d", some 3, "ProductClick"⟩] 3 "5").click
      = some { (⟨3, none, "B0", "Item", "Books", 100, some 7, 0⟩ : Click) with
          commissionRate := 5 / 100 } :=
  ⟨by decide, by decide,
   (updateClickCommission_behavior [⟨3, none, "B0", "Item", "Books", 100, some 7, 0⟩]
     [⟨1, 7, "earnings", 10, "pending", "d", some 3, "ProductClick"⟩] 3 "5" 5
     ⟨3, none, "B0", "Item", "Books", 100, some 7, 0⟩ (by decide) (by decide)).2.1⟩

end HasCart
